import Mathlib

/-!
Shallow embedding of the MCP/A2A order-processing demo
(`a2a_agents.py`, `a2a_demo.py`, `mcp_store.py`).

Python strings are modelled as Lean `String`, Python `str.lower` as a
character-wise ASCII lowering, and the Python substring test `needle in hay`
as `containsSub`.  Python numbers flow through the pipeline as rationals
(`ℚ`): the tax-rate literals `0.08`, `0.13`, ... are the exact rationals
`8/100`, `13/100`, ..., and Python's `round(x, 2)` is modelled as rounding
`x * 100` to the nearest integer (`round2`).  Randomly generated identifiers
(`uuid.uuid4()`) are parameters of the embedded functions.
-/

namespace A2A

/-- Python `str.lower()` restricted to the ASCII strings the demo uses. -/
def strLower (s : String) : String :=
  String.mk (s.data.map Char.toLower)

/-- `isPrefixOfChars n h` is true when `n` is a prefix of `h`. -/
def isPrefixOfChars : List Char → List Char → Bool
  | [], _ => true
  | _ :: _, [] => false
  | a :: as, b :: bs => a == b && isPrefixOfChars as bs

/-- Python's substring test `needle in hay` on character lists. -/
def containsSub (needle : List Char) : List Char → Bool
  | [] => isPrefixOfChars needle []
  | h :: t => isPrefixOfChars needle (h :: t) || containsSub needle t

/-- The test `city in dest_lower` used by both region classifiers:
the destination is lowered, the city literal is already lowercase. -/
def cityIn (city : String) (dest : String) : Bool :=
  containsSub city.data (strLower dest).data

/-- `any(city in dest_lower for city in cities)`. -/
def matchesAny (dest : String) (cities : List String) : Bool :=
  cities.any fun c => cityIn c dest

/-- US city list of `TaxAgent._determine_region` (a2a_agents.py line 113). -/
def usCities : List String := ["new york", "san francisco", "chicago"]

/-- CA city list of `TaxAgent._determine_region` (a2a_agents.py line 115). -/
def caCities : List String := ["toronto", "vancouver"]

/-- UK city list of `TaxAgent._determine_region` (a2a_agents.py line 117). -/
def ukCities : List String := ["london", "manchester"]

/-- EU city list of `TaxAgent._determine_region` (a2a_agents.py line 119). -/
def euCities : List String := ["paris", "berlin", "rome"]

/-- `TaxAgent._determine_region` (a2a_agents.py lines 110-121): priority-ordered
case-insensitive substring matching with default region `"US"`. -/
def determineRegion (destination : String) : String :=
  if matchesAny destination usCities then "US"
  else if matchesAny destination caCities then "CA"
  else if matchesAny destination ukCities then "UK"
  else if matchesAny destination euCities then "EU"
  else "US"

/-- The inline classifier of `TaxExpertAgent.process` (a2a_demo.py lines
53-61): it only knows `new york`, `chicago`, `toronto` and `london`. -/
def demoRegion (destination : String) : String :=
  if cityIn "new york" destination || cityIn "chicago" destination then "US"
  else if cityIn "toronto" destination then "CA"
  else if cityIn "london" destination then "UK"
  else "US"

/-- The ordered (city list, region) table of `_determine_region`, used to
state that the classifier is a first-match-wins scan of this table. -/
def regionTable : List (List String × String) :=
  [(usCities, "US"), (caCities, "CA"), (ukCities, "UK"), (euCities, "EU")]

/-- First-match-wins scan of a (city list, region) table with default
region `"US"`. -/
def firstMatch (dest : String) : List (List String × String) → String
  | [] => "US"
  | (cities, r) :: rest =>
    if matchesAny dest cities then r else firstMatch dest rest

/-- One entry of the `TAX_RATES` dictionary. -/
structure TaxInfo where
  rate : ℚ
  name : String
deriving DecidableEq

/-- `TaxAgent.TAX_RATES` (a2a_agents.py lines 45-51); identical to
`TaxExpertAgent.TAX_RATES` (a2a_demo.py lines 32-38). -/
def TAX_RATES : List (String × TaxInfo) :=
  [("US", ⟨8/100, "Sales Tax"⟩),
   ("CA", ⟨13/100, "HST/GST"⟩),
   ("UK", ⟨20/100, "VAT"⟩),
   ("EU", ⟨21/100, "VAT"⟩),
   ("default", ⟨10/100, "Tax"⟩)]

/-- `self.TAX_RATES.get(region, self.TAX_RATES["default"])`
(a2a_agents.py line 72 / a2a_demo.py line 63); the fallback value is the
table's `"default"` entry. -/
def taxInfoFor (region : String) : TaxInfo :=
  match TAX_RATES.lookup region with
  | some info => info
  | none => ⟨10/100, "Tax"⟩

/-- Python `round(x, 2)`: round `x * 100` to the nearest integer and scale
back.  `round` is Mathlib's round-to-nearest (half towards `+∞`), the
"standard half-up (or language-default)" policy the numbers of this demo
never distinguish from Python's behaviour on the inputs used here. -/
def round2 (x : ℚ) : ℚ :=
  ((round (x * 100) : ℤ) : ℚ) / 100

/-- The order payload read by `TaxExpertAgent.process` / `TaxAgent.execute`:
fields `product`, `quantity`, `subtotal`, `destination`. -/
structure OrderData where
  product : String
  quantity : ℤ
  subtotal : ℚ
  destination : String
deriving DecidableEq

/-- The tax-calculation result dictionary built at a2a_agents.py lines 84-94
and a2a_demo.py lines 72-82. -/
structure TaxResult where
  product : String
  quantity : ℤ
  subtotal : ℚ
  tax_region : String
  tax_type : String
  tax_rate : ℚ
  tax_amount : ℚ
  total_amount : ℚ
  destination : String
deriving DecidableEq

/-- The arithmetic shared by both tax agents once a region is fixed
(a2a_agents.py lines 72-94 / a2a_demo.py lines 63-82). -/
def taxResultFor (region : String) (o : OrderData) : TaxResult :=
  let info := taxInfoFor region
  let tax_amount := round2 (o.subtotal * info.rate)
  let total := round2 (o.subtotal + tax_amount)
  { product := o.product, quantity := o.quantity, subtotal := o.subtotal,
    tax_region := region, tax_type := info.name, tax_rate := info.rate,
    tax_amount := tax_amount, total_amount := total,
    destination := o.destination }

/-- The computational core of `TaxAgent.execute` (a2a_agents.py lines
64-94): region from `_determine_region`, then the tax arithmetic. -/
def taxCompute (o : OrderData) : TaxResult :=
  taxResultFor (determineRegion o.destination) o

/-- The computational core of `TaxExpertAgent.process` (a2a_demo.py lines
47-82): region from the inline classifier, then the same arithmetic. -/
def demoTaxProcess (o : OrderData) : TaxResult :=
  taxResultFor (demoRegion o.destination) o

/-- One entry of the invoice's `line_items` list. -/
structure LineItem where
  description : String
  quantity : ℤ
  unit_price : ℚ
  amount : ℚ
deriving DecidableEq

/-- The invoice's `tax` sub-dictionary. -/
structure TaxBlock where
  type : String
  rate : ℚ
  amount : ℚ
deriving DecidableEq

/-- The invoice dictionary built at a2a_agents.py lines 184-205 and
a2a_demo.py lines 111-132 (identical field by field).  The `summary`
field abstracts Python's float formatting as `toString` of the rational. -/
structure Invoice where
  invoice_id : String
  date : String
  line_items : List LineItem
  subtotal : ℚ
  tax : TaxBlock
  total : ℚ
  ship_to : String
  status : String
  summary : String
deriving DecidableEq

/-- The runtime faults the demo can raise while building an invoice:
`subtotal / quantity` with `quantity = 0` raises `ZeroDivisionError`. -/
inductive PyError
  | ZeroDivisionError
deriving DecidableEq

/-- Python `str.title()` on ASCII text: uppercase an alphabetic character
that follows a non-alphabetic one, lowercase the rest. -/
def titleChars : Bool → List Char → List Char
  | _, [] => []
  | prevAlpha, c :: rest =>
    if c.isAlpha then
      (if prevAlpha then c.toLower else c.toUpper) :: titleChars true rest
    else
      c :: titleChars false rest

/-- Python `str.title()`. -/
def pyTitle (s : String) : String :=
  String.mk (titleChars false s.data)

/-- `InvoiceBotAgent.process` (a2a_demo.py lines 95-138); the invoice
construction of `BillingAgent.execute` (a2a_agents.py lines 171-205) is
character-for-character the same dictionary.  The random invoice id
(`uuid.uuid4().hex[:8]`) is the parameter `invoiceId`.  The unguarded
Python expression `round(subtotal / quantity, 2)` raises
`ZeroDivisionError` when `quantity` is 0; every other input produces the
invoice dictionary. -/
def invoiceProcess (invoiceId : String) (t : TaxResult) :
    Except PyError Invoice :=
  if t.quantity = 0 then .error .ZeroDivisionError
  else .ok
    { invoice_id := invoiceId,
      date := "2024-02-08",
      line_items :=
        [{ description := pyTitle t.product,
           quantity := t.quantity,
           unit_price := round2 (t.subtotal / (t.quantity : ℚ)),
           amount := t.subtotal }],
      subtotal := t.subtotal,
      tax := { type := t.tax_type, rate := t.tax_rate, amount := t.tax_amount },
      total := t.total_amount,
      ship_to := t.destination,
      status := "ISSUED",
      summary := "Invoice " ++ invoiceId ++ " generated for " ++ t.product
        ++ " order ($" ++ toString t.total_amount ++ ")" }

/-- `AgentOrchestrator.process_order` (a2a_demo.py lines 152-175): route the
order through `TaxExpertAgent.process`, feed the result to
`InvoiceBotAgent.process`, return the invoice.  A fault raised by a stage
propagates (the orchestrator installs no handler). -/
def processOrder (invoiceId : String) (o : OrderData) :
    Except PyError Invoice :=
  invoiceProcess invoiceId (demoTaxProcess o)

/-- The task states a reference agent actually emits
(`TaskStatus.IN_PROGRESS` / `COMPLETED`, plus `FAILED` from the contract). -/
inductive TStatus
  | IN_PROGRESS
  | COMPLETED
  | FAILED
deriving DecidableEq

/-- The payload carried by an `Artifact`. -/
inductive ArtifactData
  | tax (r : TaxResult)
  | invoice (i : Invoice)
deriving DecidableEq

/-- `Artifact(id=..., type=..., data=...)` as constructed by the agents. -/
structure Artifact where
  id : String
  type : String
  data : ArtifactData
deriving DecidableEq

/-- A `TaskStatusUpdateEvent`: task id, new status, message, and the
artifacts attached to the update (`[]` when the Python call passes none). -/
structure Update where
  task_id : String
  status : TStatus
  message : String
  artifacts : List Artifact
deriving DecidableEq

/-- `TaxAgent.execute` (a2a_agents.py lines 53-108) as the finite sequence
of `TaskStatusUpdateEvent`s the generator yields, in order; the random
artifact id is the parameter `artifactId`.  The generator never raises:
it yields IN_PROGRESS first and COMPLETED (with the single artifact) last. -/
def taxExecute (taskId artifactId : String) (o : OrderData) : List Update :=
  let r := taxCompute o
  [{ task_id := taskId, status := .IN_PROGRESS,
     message := "Analyzing order for tax calculation...", artifacts := [] },
   { task_id := taskId, status := .COMPLETED,
     message := "Tax calculation completed: $" ++ toString r.tax_amount
       ++ " " ++ r.tax_type,
     artifacts := [⟨artifactId, "tax_calculation", .tax r⟩] }]

/-- `BillingAgent.execute` (a2a_agents.py lines 160-224): the updates the
generator yields, paired with the fault, if any, that aborted it.  After
the IN_PROGRESS update the invoice dictionary is built; a zero `quantity`
raises `ZeroDivisionError` there, so the generator ends with no terminal
update.  Otherwise a COMPLETED update carrying the invoice artifact
follows. -/
def billingExecute (taskId invoiceId artifactId : String) (t : TaxResult) :
    List Update × Option PyError :=
  let first : Update :=
    { task_id := taskId, status := .IN_PROGRESS,
      message := "Preparing invoice document...", artifacts := [] }
  match invoiceProcess invoiceId t with
  | .error e => ([first], some e)
  | .ok inv =>
    ([first,
      { task_id := taskId, status := .COMPLETED,
        message := "Invoice " ++ invoiceId ++ " generated successfully",
        artifacts := [⟨artifactId, "invoice", .invoice inv⟩] }], none)

/-- Is a status terminal (COMPLETED or FAILED)? -/
def isTerminalStatus : TStatus → Bool
  | .COMPLETED => true
  | .FAILED => true
  | .IN_PROGRESS => false

/-- The event-sequence contract of §4.1: non-empty, first update
IN_PROGRESS with no artifacts attached, exactly one terminal update which
is the last element, and artifacts only on COMPLETED updates.  (Finiteness
holds by construction: the model emits a `List`.) -/
def goodSequence (us : List Update) : Prop :=
  us.head?.map Update.status = some .IN_PROGRESS ∧
  us.head?.map Update.artifacts = some [] ∧
  us.countP (fun u => isTerminalStatus u.status) = 1 ∧
  (∃ lastU, us.getLast? = some lastU ∧ isTerminalStatus lastU.status = true) ∧
  ∀ u ∈ us, u.artifacts ≠ [] → u.status = .COMPLETED

/-- One row of the `INVENTORY` dictionary (mcp_store.py lines 10-15). -/
structure Product where
  stock : ℤ
  price : ℤ
  sku : String
deriving DecidableEq

/-- The module-global `INVENTORY` table (mcp_store.py lines 10-15). -/
def INVENTORY : List (String × Product) :=
  [("laptop", ⟨5, 1000, "LAP-001"⟩),
   ("monitor", ⟨2, 300, "MON-001"⟩),
   ("keyboard", ⟨15, 80, "KEY-001"⟩),
   ("mouse", ⟨20, 25, "MOU-001"⟩)]

/-- The dictionary returned by `check_stock`; the found and not-found
branches return different key sets, modelled with `Option` fields. -/
structure StockResult where
  product : String
  sku : Option String
  stock : Option ℤ
  price : Option ℤ
  available : Bool
  message : String
deriving DecidableEq

/-- `check_stock` (mcp_store.py lines 18-44).  The Python function reads
the module global `INVENTORY` and never writes it; the global is made an
explicit state argument that is also returned, so statelessness is visible
in the type. -/
def check_stock (inv : List (String × Product)) (item_name : String) :
    StockResult × List (String × Product) :=
  let item := strLower item_name
  match inv.lookup item with
  | some p =>
    ({ product := item_name, sku := some p.sku, stock := some p.stock,
       price := some p.price, available := decide (p.stock > 0),
       message := "✅ " ++ pyTitle item_name ++ " is in stock!" }, inv)
  | none =>
    ({ product := item_name, sku := none, stock := none, price := none,
       available := false,
       message := "❌ Product " ++ item_name ++ " not found in inventory" },
     inv)

/-- The three dictionaries `reserve_item` can return. -/
inductive ReserveOutcome
  | notFound (message : String)
  | reserved (product : String) (quantity : ℤ) (sku : String)
      (unit_price : ℤ) (subtotal : ℤ) (message : String)
  | shortage (product : String) (requested : ℤ) (available : ℤ)
      (message : String)
deriving DecidableEq

/-- The `success` flag of the returned dictionary. -/
def ReserveOutcome.success : ReserveOutcome → Bool
  | .reserved .. => true
  | .notFound _ => false
  | .shortage .. => false

/-- The `subtotal` key of the returned dictionary, when present. -/
def ReserveOutcome.subtotalField : ReserveOutcome → Option ℤ
  | .reserved _ _ _ _ s _ => some s
  | _ => none

/-- The `unit_price` key of the returned dictionary, when present. -/
def ReserveOutcome.unitPriceField : ReserveOutcome → Option ℤ
  | .reserved _ _ _ p _ _ => some p
  | _ => none

/-- `reserve_item` (mcp_store.py lines 91-128).  The source only *reads*
`INVENTORY` (the reservation is simulated, per the comment at line 111);
as with `check_stock` the global is threaded explicitly and returned. -/
def reserve_item (inv : List (String × Product)) (item_name : String)
    (quantity : ℤ) : ReserveOutcome × List (String × Product) :=
  let item := strLower item_name
  match inv.lookup item with
  | none =>
    (.notFound ("❌ Product " ++ item_name ++ " not found"), inv)
  | some p =>
    if p.stock ≥ quantity then
      (.reserved item_name quantity p.sku p.price (p.price * quantity)
        ("✅ Reserved " ++ toString quantity ++ "x " ++ pyTitle item_name),
       inv)
    else
      (.shortage item_name quantity p.stock
        ("❌ Only " ++ toString p.stock ++ " units available"), inv)

/-- `n` repetitions of the same `reserve_item` call, threading the
inventory state through. -/
def iterateReserve (item : String) (q : ℤ) :
    ℕ → List (String × Product) → List (String × Product)
  | 0, inv => inv
  | n + 1, inv => iterateReserve item q n (reserve_item inv item q).2

/-- The city substrings known only to `TaxAgent._determine_region` and not
to the inline classifier of `TaxExpertAgent.process`. -/
def agentsOnlyCities : List String :=
  ["san francisco", "vancouver", "manchester", "paris", "berlin", "rome"]

/-- The demo's hard-coded order (a2a_demo.py lines 201-206). -/
def demoInput : OrderData :=
  { product := "laptop", quantity := 2, subtotal := 2000,
    destination := "New York" }

/-- The invoice fields that are not derived from the generated invoice
identifier (everything except `invoice_id` and the `summary` string that
embeds it). -/
def invoiceCore (inv : Invoice) :
    String × List LineItem × ℚ × TaxBlock × ℚ × String × String :=
  (inv.date, inv.line_items, inv.subtotal, inv.tax, inv.total,
   inv.ship_to, inv.status)

/-- C2: `_determine_region` lower-cases the destination and scans the city
lists in the fixed priority order US, CA, UK, EU, returning the region of
the first list containing a matching substring; no match yields `"US"`; a
destination matching both the US and the EU list resolves to `"US"`.
Determinism is immediate: the classifier is a function of the destination
alone. -/
theorem c2_region_priority_order (d : String) :
    determineRegion d = firstMatch d regionTable ∧
    (matchesAny d usCities = true → matchesAny d euCities = true →
      determineRegion d = "US") ∧
    (matchesAny d usCities = false → matchesAny d caCities = false →
      matchesAny d ukCities = false → matchesAny d euCities = false →
      determineRegion d = "US") := by
  refine ⟨rfl, ?_, ?_⟩
  · intro h1 _
    simp [determineRegion, h1]
  · intro h1 h2 h3 h4
    simp [determineRegion, h1, h2, h3, h4]

/-- Witness for C2 at the destination "New York and Paris", which contains
both a US-list and an EU-list city and resolves to `"US"`. -/
theorem c2_region_priority_order_witness :
    matchesAny "New York and Paris" usCities = true ∧
    matchesAny "New York and Paris" euCities = true ∧
    determineRegion "New York and Paris" = "US" :=
  ⟨by decide, by decide,
    (c2_region_priority_order "New York and Paris").2.1 (by decide) (by decide)⟩

/-- Counterexample to C5: on destination "Vancouver" the two classifiers
disagree — `_determine_region` (a2a_agents.py) returns `"CA"` while the
inline classifier of `TaxExpertAgent.process` (a2a_demo.py), which has no
`vancouver` entry, falls through to `"US"`. -/
theorem c5_counterexample_vancouver :
    determineRegion "Vancouver" = "CA" ∧ demoRegion "Vancouver" = "US" ∧
    demoRegion "Vancouver" ≠ determineRegion "Vancouver" := by
  decide

/-- C5 amended: the two classifiers agree on every destination containing
none of the six city substrings present only in the a2a_agents.py lists
(`san francisco`, `vancouver`, `manchester`, `paris`, `berlin`, `rome`). -/
theorem c5_amended_classifiers_agree (d : String)
    (h : matchesAny d agentsOnlyCities = false) :
    demoRegion d = determineRegion d := by
  simp only [matchesAny, agentsOnlyCities, List.any_cons, List.any_nil,
    Bool.or_eq_false_iff] at h
  obtain ⟨hsf, hvan, hman, hpar, hber, hrom, -⟩ := h
  simp [demoRegion, determineRegion, matchesAny, usCities, caCities,
    ukCities, euCities, hsf, hvan, hman, hpar, hber, hrom]

/-- Witness for C5 (amended) at destination "Toronto, Ontario": no
agents-only city occurs, and both classifiers return `"CA"`. -/
theorem c5_amended_classifiers_agree_witness :
    matchesAny "Toronto, Ontario" agentsOnlyCities = false ∧
    demoRegion "Toronto, Ontario" = determineRegion "Toronto, Ontario" ∧
    determineRegion "Toronto, Ontario" = "CA" :=
  ⟨by decide, c5_amended_classifiers_agree "Toronto, Ontario" (by decide),
    by decide⟩

/-- C9: `_determine_region` only ever returns `"US"`, `"CA"`, `"UK"` or
`"EU"`; each is a key of `TAX_RATES`, so the `get` fallback to the
`"default"` 10% entry is unreachable and the applied rate is always one of
0.08, 0.13, 0.20, 0.21. -/
theorem c9_default_rate_unreachable (d : String) :
    determineRegion d ∈ (["US", "CA", "UK", "EU"] : List String) ∧
    (TAX_RATES.lookup (determineRegion d)).isSome = true ∧
    (taxInfoFor (determineRegion d)).rate ∈
      ([8/100, 13/100, 20/100, 21/100] : List ℚ) := by
  have h : determineRegion d = "US" ∨ determineRegion d = "CA" ∨
      determineRegion d = "UK" ∨ determineRegion d = "EU" := by
    unfold determineRegion
    split_ifs <;> simp
  rcases h with h | h | h | h <;> rw [h]
  · exact ⟨by decide, rfl, List.mem_cons_self _ _⟩
  · exact ⟨by decide, rfl,
      List.mem_cons_of_mem _ (List.mem_cons_self _ _)⟩
  · exact ⟨by decide, rfl,
      List.mem_cons_of_mem _ (List.mem_cons_of_mem _ (List.mem_cons_self _ _))⟩
  · exact ⟨by decide, rfl,
      List.mem_cons_of_mem _ (List.mem_cons_of_mem _
        (List.mem_cons_of_mem _ (List.mem_cons_self _ _)))⟩

/-- The `"US"` row of `TAX_RATES`. -/
theorem taxInfoFor_US : taxInfoFor "US" = ⟨8/100, "Sales Tax"⟩ := rfl

/-- `round2` is the identity on integer multiples of `1/100`. -/
theorem round2_div100_int (n : ℤ) : round2 ((n : ℚ) / 100) = (n : ℚ) / 100 := by
  unfold round2
  rw [div_mul_cancel₀ _ (by norm_num : (100:ℚ) ≠ 0), round_intCast]

/-- Rounding to two decimal places moves a value by at most `1/200`. -/
theorem abs_round2_sub_le (x : ℚ) : |round2 x - x| ≤ 1 / 200 := by
  have h : |x * 100 - ((round (x * 100) : ℤ) : ℚ)| ≤ 1 / 2 :=
    abs_sub_round (x * 100)
  unfold round2
  rw [show ((round (x * 100) : ℤ) : ℚ) / 100 - x
      = -((x * 100 - ((round (x * 100) : ℤ) : ℚ)) / 100) by ring]
  rw [abs_neg, abs_div, abs_of_pos (by norm_num : (0:ℚ) < 100)]
  linarith

/-- Evaluation of the demo tax stage on the hard-coded order. -/
theorem demoTaxProcess_demoInput : demoTaxProcess demoInput =
    ⟨"laptop", 2, 2000, "US", "Sales Tax", 8/100, 160, 2160, "New York"⟩ := by
  have hr : demoRegion "New York" = "US" := by decide
  have h1 : round2 ((2000:ℚ) * (8/100)) = 160 := by
    unfold round2; rw [round_eq]; norm_num
  have h2 : round2 ((2000:ℚ) + 160) = 2160 := by
    unfold round2; rw [round_eq]; norm_num
  simp [demoTaxProcess, demoInput, taxResultFor, hr, taxInfoFor_US, h1, h2]

/-- C4: the full pipeline on
`{product: "laptop", quantity: 2, subtotal: 2000, destination: "New York"}`
classifies the region as US with rate 0.08, computes taxAmount 160 and
total 2160, and returns an invoice with subtotal 2000, tax amount 160,
total 2160, and exactly one line item (description "Laptop", quantity 2,
unit price 1000, amount 2000), for any generated invoice id `iid`. -/
theorem c4_demo_pipeline_run (iid : String) :
    (demoTaxProcess demoInput).tax_region = "US" ∧
    (demoTaxProcess demoInput).tax_rate = 8/100 ∧
    (demoTaxProcess demoInput).tax_amount = 160 ∧
    (demoTaxProcess demoInput).total_amount = 2160 ∧
    ∃ inv, processOrder iid demoInput = .ok inv ∧
      inv.line_items = [⟨"Laptop", 2, 1000, 2000⟩] ∧
      inv.subtotal = 2000 ∧ inv.tax.amount = 160 ∧ inv.total = 2160 := by
  rw [processOrder, demoTaxProcess_demoInput]
  refine ⟨rfl, rfl, rfl, rfl, _, rfl, ?_, rfl, rfl, rfl⟩
  have hpt : pyTitle "laptop" = "Laptop" := by decide
  have hup : round2 ((2000 : ℚ) / 2) = 1000 := by
    unfold round2; rw [round_eq]; norm_num
  simp [invoiceProcess, hpt, hup]

/-- C1 evaluation: on input quantity 0 the pipeline does NOT fail with an
`InvalidInputError` — the unguarded `round(subtotal / quantity, 2)` at
a2a_demo.py line 118 / a2a_agents.py line 191 raises a raw
`ZeroDivisionError`, which the orchestrator propagates; the
`BillingAgent.execute` generator aborts after its IN_PROGRESS update,
emitting no terminal (COMPLETED/FAILED) update at all. -/
theorem c1_quantity_zero_division_fault :
    processOrder "INV-DEADBEEF" ⟨"laptop", 0, 2000, "New York"⟩
      = .error .ZeroDivisionError ∧
    (billingExecute "task-1" "INV-DEADBEEF" "art-1"
        (taxCompute ⟨"laptop", 0, 2000, "New York"⟩)).2
      = some .ZeroDivisionError ∧
    (billingExecute "task-1" "INV-DEADBEEF" "art-1"
        (taxCompute ⟨"laptop", 0, 2000, "New York"⟩)).1.countP
        (fun u => isTerminalStatus u.status) = 0 :=
  ⟨rfl, rfl, rfl⟩

/-- Counterexample to C3: with subtotal 0.001 (destination "New York",
rate 0.08) the code yields taxAmount 0 and total `round(0.001 + 0, 2) = 0`,
while the claimed exact sum `subtotal + taxAmount` is 0.001: the code
rounds the total a second time, so `total = subtotal + taxAmount` fails. -/
theorem c3_counterexample_small_subtotal :
    (taxCompute ⟨"widget", 1, 1/1000, "New York"⟩).tax_amount = 0 ∧
    (taxCompute ⟨"widget", 1, 1/1000, "New York"⟩).total_amount = 0 ∧
    (taxCompute ⟨"widget", 1, 1/1000, "New York"⟩).subtotal +
        (taxCompute ⟨"widget", 1, 1/1000, "New York"⟩).tax_amount = 1/1000 ∧
    (taxCompute ⟨"widget", 1, 1/1000, "New York"⟩).total_amount ≠
      (taxCompute ⟨"widget", 1, 1/1000, "New York"⟩).subtotal +
        (taxCompute ⟨"widget", 1, 1/1000, "New York"⟩).tax_amount := by
  have hr : determineRegion "New York" = "US" := by decide
  have h1 : round2 ((1000 : ℚ)⁻¹ * (8/100)) = 0 := by
    unfold round2; rw [round_eq]; norm_num
  have h2 : round2 ((1000 : ℚ)⁻¹) = 0 := by
    unfold round2; rw [round_eq]; norm_num
  have hT : taxCompute ⟨"widget", 1, 1/1000, "New York"⟩ =
      ⟨"widget", 1, 1/1000, "US", "Sales Tax", 8/100, 0, 0, "New York"⟩ := by
    simp [taxCompute, taxResultFor, hr, taxInfoFor_US, h1, h2]
  rw [hT]
  norm_num

/-- C3 amended: for every order, taxAmount = round(subtotal·rate, 2) holds
with the rate selected for the destination's region, and the code computes
total = round(subtotal + taxAmount, 2); this second rounding is the
identity — so total = subtotal + taxAmount holds exactly — whenever the
subtotal is an integer multiple of 0.01. -/
theorem c3_amended_tax_total (o : OrderData) (n : ℤ)
    (hs : o.subtotal = (n : ℚ) / 100) :
    (taxCompute o).tax_amount
      = round2 (o.subtotal * (taxInfoFor (determineRegion o.destination)).rate) ∧
    (taxCompute o).total_amount
      = round2 (o.subtotal + (taxCompute o).tax_amount) ∧
    (taxCompute o).total_amount
      = o.subtotal + (taxCompute o).tax_amount := by
  refine ⟨rfl, rfl, ?_⟩
  have h2 : (taxCompute o).tax_amount =
      ((round (o.subtotal * (taxInfoFor (determineRegion o.destination)).rate
        * 100) : ℤ) : ℚ) / 100 := rfl
  have hsum : o.subtotal + (taxCompute o).tax_amount =
      ((n + round (o.subtotal * (taxInfoFor (determineRegion o.destination)).rate
        * 100) : ℤ) : ℚ) / 100 := by
    rw [h2, hs]
    push_cast
    ring
  have h3 : (taxCompute o).total_amount
      = round2 (o.subtotal + (taxCompute o).tax_amount) := rfl
  rw [h3, hsum]
  exact round2_div100_int _

/-- Witness for C3 (amended) at the demo order: subtotal 2000 is an
integer multiple of 0.01 and the total equals subtotal + taxAmount. -/
theorem c3_amended_tax_total_witness :
    (2000 : ℚ) = ((200000 : ℤ) : ℚ) / 100 ∧
    (taxCompute ⟨"laptop", 2, 2000, "New York"⟩).total_amount
      = 2000 + (taxCompute ⟨"laptop", 2, 2000, "New York"⟩).tax_amount :=
  ⟨by norm_num,
    (c3_amended_tax_total ⟨"laptop", 2, 2000, "New York"⟩ 200000
      (by norm_num)).2.2⟩

/-- Counterexample to C6: with quantity 7 and subtotal 1, the unit price
is `round(1/7, 2) = 0.14` and `unitPrice · quantity = 0.98`, which misses
the subtotal 1 by 0.02 — more than the claimed 0.01 tolerance. -/
theorem c6_counterexample_seven_units :
    ∃ inv, invoiceProcess "INV-0001"
        (taxCompute ⟨"widget", 7, 1, "New York"⟩) = .ok inv ∧
      inv.line_items.map LineItem.unit_price = [14/100] ∧
      inv.line_items.map
        (fun li => |li.unit_price * (li.quantity : ℚ) - inv.subtotal|)
        = [2/100] ∧
      ¬ ((2 : ℚ)/100 ≤ 1/100) := by
  have hr : determineRegion "New York" = "US" := by decide
  have h1 : round2 ((8 : ℚ)/100) = 8/100 := by
    unfold round2; rw [round_eq]; norm_num
  have h2 : round2 ((1 : ℚ) + 8/100) = 108/100 := by
    unfold round2; rw [round_eq]; norm_num
  have hT : taxCompute ⟨"widget", 7, 1, "New York"⟩ =
      ⟨"widget", 7, 1, "US", "Sales Tax", 8/100, 8/100, 108/100,
        "New York"⟩ := by
    simp [taxCompute, taxResultFor, hr, taxInfoFor_US, h1, h2]
  rw [hT]
  refine ⟨_, rfl, ?_, ?_, by norm_num⟩
  · show [round2 ((1:ℚ) / ((7:ℤ) : ℚ))] = [14/100]
    norm_num [round2, round_eq]
  · show [|round2 ((1:ℚ) / ((7:ℤ) : ℚ)) * ((7:ℤ) : ℚ) - 1|] = [2/100]
    norm_num [round2, round_eq]

/-- C6 amended: for quantity ≥ 1 the single line item has
unit price = round(subtotal / quantity, 2) and quantity as given — as the
claim states — but the product `unitPrice · quantity` only equals the
subtotal within tolerance `quantity · 0.005` (= `quantity / 200`), not
within the flat 0.01 the claim asserts (those coincide only for
quantity ≤ 2). -/
theorem c6_amended_unit_price_tolerance (iid : String) (t : TaxResult)
    (h : 1 ≤ t.quantity) :
    ∃ inv, invoiceProcess iid t = .ok inv ∧
      inv.line_items.map LineItem.unit_price
        = [round2 (t.subtotal / (t.quantity : ℚ))] ∧
      inv.line_items.map LineItem.quantity = [t.quantity] ∧
      |round2 (t.subtotal / (t.quantity : ℚ)) * (t.quantity : ℚ) - t.subtotal|
        ≤ (t.quantity : ℚ) / 200 := by
  have hq0 : t.quantity ≠ 0 := by omega
  have hqQ : ((t.quantity : ℚ)) ≠ 0 := Int.cast_ne_zero.mpr hq0
  have hqpos : (0 : ℚ) < (t.quantity : ℚ) := by
    exact_mod_cast (by omega : (0:ℤ) < t.quantity)
  have hinv : invoiceProcess iid t = .ok
      { invoice_id := iid, date := "2024-02-08",
        line_items := [⟨pyTitle t.product, t.quantity,
          round2 (t.subtotal / (t.quantity : ℚ)), t.subtotal⟩],
        subtotal := t.subtotal,
        tax := { type := t.tax_type, rate := t.tax_rate, amount := t.tax_amount },
        total := t.total_amount, ship_to := t.destination, status := "ISSUED",
        summary := "Invoice " ++ iid ++ " generated for " ++ t.product
          ++ " order ($" ++ toString t.total_amount ++ ")" } := by
    unfold invoiceProcess; rw [if_neg hq0]
  refine ⟨_, hinv, rfl, rfl, ?_⟩
  have hx : t.subtotal / (t.quantity : ℚ) * (t.quantity : ℚ) = t.subtotal :=
    div_mul_cancel₀ _ hqQ
  have hclose := abs_round2_sub_le (t.subtotal / (t.quantity : ℚ))
  calc |round2 (t.subtotal / (t.quantity : ℚ)) * (t.quantity : ℚ) - t.subtotal|
      = |(round2 (t.subtotal / (t.quantity : ℚ)) - t.subtotal / (t.quantity : ℚ))
          * (t.quantity : ℚ)| := by rw [sub_mul, hx]
    _ = |round2 (t.subtotal / (t.quantity : ℚ)) - t.subtotal / (t.quantity : ℚ)|
          * |(t.quantity : ℚ)| := abs_mul _ _
    _ ≤ (1/200) * (t.quantity : ℚ) := by
        rw [abs_of_pos hqpos]
        exact mul_le_mul_of_nonneg_right hclose hqpos.le
    _ = (t.quantity : ℚ) / 200 := by ring

/-- Witness for C6 (amended) at the tax result of the demo order
(quantity 2 ≥ 1). -/
theorem c6_amended_unit_price_tolerance_witness :
    (1 : ℤ) ≤ (taxCompute demoInput).quantity ∧
    ∃ inv, invoiceProcess "INV-0002" (taxCompute demoInput) = .ok inv ∧
      inv.line_items.map LineItem.unit_price
        = [round2 ((taxCompute demoInput).subtotal
            / ((taxCompute demoInput).quantity : ℚ))] ∧
      inv.line_items.map LineItem.quantity = [(taxCompute demoInput).quantity] ∧
      |round2 ((taxCompute demoInput).subtotal
            / ((taxCompute demoInput).quantity : ℚ))
          * ((taxCompute demoInput).quantity : ℚ)
          - (taxCompute demoInput).subtotal|
        ≤ ((taxCompute demoInput).quantity : ℚ) / 200 :=
  ⟨by decide,
    c6_amended_unit_price_tolerance "INV-0002" (taxCompute demoInput)
      (by decide)⟩

/-- Counterexample to C7: dispatch a task with quantity 0 to the billing
agent.  Its generator yields the IN_PROGRESS update and then aborts with
`ZeroDivisionError`: the emitted sequence contains zero terminal
(COMPLETED/FAILED) updates, violating the exactly-one-terminal contract. -/
theorem c7_counterexample_no_terminal :
    (billingExecute "task-7" "INV-0007" "art-7"
        ⟨"laptop", 0, 2000, "US", "Sales Tax", 8/100, 160, 2160,
          "New York"⟩).1.countP (fun u => isTerminalStatus u.status) = 0 ∧
    (billingExecute "task-7" "INV-0007" "art-7"
        ⟨"laptop", 0, 2000, "US", "Sales Tax", 8/100, 160, 2160,
          "New York"⟩).2 = some .ZeroDivisionError ∧
    ¬ goodSequence (billingExecute "task-7" "INV-0007" "art-7"
        ⟨"laptop", 0, 2000, "US", "Sales Tax", 8/100, 160, 2160,
          "New York"⟩).1 :=
  ⟨rfl, rfl, fun hgood => absurd hgood.2.2.1 (by decide)⟩

/-- C7 amended: every tax-agent task, and every billing-agent task whose
quantity is nonzero, yields a finite update sequence whose first element
is IN_PROGRESS with no artifacts attached (emitted before the stage
computation, which only the later elements depend on), with exactly one
terminal update — the final COMPLETED one — and artifacts only on
COMPLETED updates. -/
theorem c7_amended_update_contract (tid aid iid : String) (o : OrderData)
    (t : TaxResult) (h : t.quantity ≠ 0) :
    goodSequence (taxExecute tid aid o) ∧
    (billingExecute tid iid aid t).2 = none ∧
    goodSequence (billingExecute tid iid aid t).1 := by
  obtain ⟨inv, hinv⟩ : ∃ inv, invoiceProcess iid t = .ok inv :=
    ⟨_, by unfold invoiceProcess; rw [if_neg h]⟩
  refine ⟨⟨rfl, rfl, rfl, ⟨_, rfl, rfl⟩, ?_⟩, ?_, ?_⟩
  · simp [taxExecute]
  · simp [billingExecute, hinv]
  · refine ⟨?_, ?_, ?_, ?_, ?_⟩ <;>
      simp [billingExecute, hinv, goodSequence, isTerminalStatus,
        List.countP, List.countP.go]

/-- Witness for C7 (amended) at concrete task data with quantity 2. -/
theorem c7_amended_update_contract_witness :
    goodSequence (taxExecute "task-1" "art-1" demoInput) ∧
    (billingExecute "task-1" "INV-0004" "art-1"
        ⟨"laptop", 2, 2000, "US", "Sales Tax", 8/100, 160, 2160,
          "New York"⟩).2 = none ∧
    goodSequence (billingExecute "task-1" "INV-0004" "art-1"
        ⟨"laptop", 2, 2000, "US", "Sales Tax", 8/100, 160, 2160,
          "New York"⟩).1 :=
  c7_amended_update_contract "task-1" "art-1" "INV-0004" demoInput
    ⟨"laptop", 2, 2000, "US", "Sales Tax", 8/100, 160, 2160, "New York"⟩
    (by decide)

/-- C8: two runs of `process_order` on the same payload (the invoice ids
being the runs' only nondeterminism) agree on every invoice field not
derived from the generated identifier — everything except `invoice_id`
and the `summary` string that embeds it; a run that faults does so
identically. -/
theorem c8_idempotent_modulo_ids (o : OrderData) (id1 id2 : String) :
    (processOrder id1 o).map invoiceCore
      = (processOrder id2 o).map invoiceCore := by
  by_cases h : (demoTaxProcess o).quantity = 0 <;>
    simp [processOrder, invoiceProcess, h, invoiceCore, Except.map]

/-- C10: `check_stock` and `reserve_item` leave the inventory unchanged
(the reservation at mcp_store.py line 111 is simulated, never writing
the table); when the looked-up product's stock covers the quantity the
result has `success = true`, `unit_price` the table price and
`subtotal = price · quantity`; and because the state never changes, any
number of repetitions of the same reservation still succeeds whenever the
initial stock covers the requested quantity. -/
theorem c10_reservation_stateless (inv : List (String × Product))
    (item : String) (q : ℤ) :
    (check_stock inv item).2 = inv ∧
    (reserve_item inv item q).2 = inv ∧
    (∀ n, iterateReserve item q n inv = inv) ∧
    ∀ p, inv.lookup (strLower item) = some p → q ≤ p.stock →
      (reserve_item inv item q).1.success = true ∧
      (reserve_item inv item q).1.unitPriceField = some p.price ∧
      (reserve_item inv item q).1.subtotalField = some (p.price * q) ∧
      ∀ n, ((reserve_item (iterateReserve item q n inv) item q).1).success
        = true := by
  have hc : (check_stock inv item).2 = inv := by
    rcases hl : List.lookup (strLower item) inv with - | p <;>
      simp [check_stock, hl]
  have hrs : (reserve_item inv item q).2 = inv := by
    rcases hl : List.lookup (strLower item) inv with - | p
    · simp [reserve_item, hl]
    · simp only [reserve_item, hl]
      split_ifs <;> rfl
  have hit : ∀ n, iterateReserve item q n inv = inv := by
    intro n
    induction n with
    | zero => rfl
    | succ n ih => rw [iterateReserve, hrs, ih]
  refine ⟨hc, hrs, hit, ?_⟩
  intro p hp hq
  have hres : (reserve_item inv item q).1 =
      .reserved item q p.sku p.price (p.price * q)
        ("✅ Reserved " ++ toString q ++ "x " ++ pyTitle item) := by
    simp only [reserve_item, hp]
    rw [if_pos hq]
  refine ⟨by rw [hres]; rfl, by rw [hres]; rfl, by rw [hres]; rfl, ?_⟩
  intro n
  rw [hit n, hres]
  rfl

/-- Witness for C10: reserving 3 laptops from the initial inventory
(stock 5) succeeds with subtotal 3000, and still succeeds after four
earlier identical reservations. -/
theorem c10_reservation_stateless_witness :
    INVENTORY.lookup (strLower "laptop") = some ⟨5, 1000, "LAP-001"⟩ ∧
    (3 : ℤ) ≤ (5 : ℤ) ∧
    (reserve_item INVENTORY "laptop" 3).1.success = true ∧
    (reserve_item INVENTORY "laptop" 3).1.subtotalField = some 3000 ∧
    (reserve_item (iterateReserve "laptop" 3 4 INVENTORY) "laptop" 3).1.success
      = true := by
  have h := (c10_reservation_stateless INVENTORY "laptop" 3).2.2.2
      ⟨5, 1000, "LAP-001"⟩ (by decide) (by decide)
  exact ⟨by decide, by decide, h.1, by rw [h.2.2.1]; decide, h.2.2.2 4⟩

end A2A
